import Mathlib

/-
Verification of the flask-quiz-server persistence layer (src/server.py).

The file embeds the module shallowly:
* configuration truthiness of DATABASE_URL (server.py line 21, used at lines 31, 53, 93, 118);
* the connection resolver (import guard lines 8-11, get_db lines 28-41);
* the schema DDL chosen by init_db (lines 51-75);
* the request handlers save_score (lines 84-108) and get_scores (lines 111-126),
  with explicit injection points for engine faults (connection acquisition,
  statement execution, commit) so that the try/except structure of the source
  is reflected exactly: in save_score only execute and commit are inside the
  try block; get_scores has no try block at all.

The database is modelled as the list of committed rows of the records table,
plus the auto-increment counter and a flag for whether the table exists.
SELECT ... ORDER BY date_time DESC is modelled by mergeSort with the
comparator on the stored date_time value.
-/

namespace Server

/-- Python truthiness of the DATABASE_URL environment value (server.py line 21):
the value is either absent (None) or a string; None and the empty string are falsy. -/
def databaseUrlTruthy : Option String → Bool
  | none => false
  | some s => !(s == "")

/-- The two backing engines the source can bind to (sqlite3 vs psycopg2). -/
inductive Engine where
  | embeddedFile
  | networkedRelational
deriving DecidableEq

/-- The dialect parameters that differ between the two branches of the source
(placeholder style in save_score, id column and timestamp column DDL in init_db). -/
structure EngineBinding where
  engine : Engine
  placeholderStyle : String
  idColumn : String
  timestampColumn : String
deriving DecidableEq

/-- Dialect parameters of the sqlite3 branch (server.py lines 38-40, 66-74, 100-104). -/
def embeddedBinding : EngineBinding :=
  ⟨Engine.embeddedFile, "?", "INTEGER PRIMARY KEY AUTOINCREMENT", "TEXT"⟩

/-- Dialect parameters of the psycopg2 branch (server.py lines 31-36, 55-63, 93-98). -/
def networkedBinding : EngineBinding :=
  ⟨Engine.networkedRelational, "%s", "SERIAL PRIMARY KEY", "TIMESTAMP WITHOUT TIME ZONE"⟩

/-- The engine binding as a function of the configuration: every branch in the
source tests the same DATABASE_URL value (lines 31, 53, 93, 118). -/
def resolve (url : Option String) : EngineBinding :=
  if databaseUrlTruthy url then networkedBinding else embeddedBinding

/-- The CREATE TABLE statement chosen by init_db (server.py lines 53-74),
whitespace normalised to one line. -/
def init_db_sql (url : Option String) : String :=
  if databaseUrlTruthy url then
    "CREATE TABLE IF NOT EXISTS records (id SERIAL PRIMARY KEY, user_name VARCHAR(100) NOT NULL, score INTEGER NOT NULL, accuracy REAL NOT NULL, date_time TIMESTAMP WITHOUT TIME ZONE NOT NULL)"
  else
    "CREATE TABLE IF NOT EXISTS records (id INTEGER PRIMARY KEY AUTOINCREMENT, user_name TEXT NOT NULL, score INTEGER NOT NULL, accuracy REAL NOT NULL, date_time TEXT NOT NULL)"

/-- The INSERT statement chosen by save_score (server.py lines 93-104). -/
def insert_sql (url : Option String) : String :=
  if databaseUrlTruthy url then
    "INSERT INTO records (user_name, score, accuracy, date_time) VALUES (%s, %s, %s, %s)"
  else
    "INSERT INTO records (user_name, score, accuracy, date_time) VALUES (?, ?, ?, ?)"

/-- Result of running a piece of Python code: a value, or an uncaught exception
carrying its message. -/
inductive PyResult (α : Type) where
  | ok (val : α)
  | raised (detail : String)
deriving DecidableEq

/-- Module-level state established by the top-level statements of server.py:
the psycopg2 binding (None when the import failed, lines 8-11) and DATABASE_URL. -/
structure ModuleState where
  psycopg2 : Option Unit
  DATABASE_URL : Option String
deriving DecidableEq

/-- The process environment: whether the psycopg2 driver is importable, and the
DATABASE_URL configuration value. -/
structure ProcessEnv where
  driverAvailable : Bool
  DATABASE_URL : Option String
deriving DecidableEq

/-- The guarded import at server.py lines 8-11: an ImportError is caught and the
name psycopg2 is bound to None instead. -/
def importPsycopg2 (env : ProcessEnv) : Option Unit :=
  if env.driverAvailable then some () else none

/-- Running the module top level (imports, load_dotenv, app construction,
configuration reads, lines 1-25): it never raises, because the only fallible
statement, the psycopg2 import, is wrapped in try/except ImportError. -/
def moduleLoad (env : ProcessEnv) : PyResult ModuleState :=
  PyResult.ok ⟨importPsycopg2 env, env.DATABASE_URL⟩

/-- get_db (server.py lines 28-41): with DATABASE_URL truthy it requires the
psycopg2 binding and raises RuntimeError when it is None; otherwise it connects
to the embedded sqlite file. The returned value records which engine the
connection targets. -/
def get_db (m : ModuleState) : PyResult Engine :=
  if databaseUrlTruthy m.DATABASE_URL then
    match m.psycopg2 with
    | none => PyResult.raised "psycopg2 is not installed. Required for PostgreSQL."
    | some _ => PyResult.ok Engine.networkedRelational
  else PyResult.ok Engine.embeddedFile

/-- Loading server.py as a WSGI module: the main guard at line 130 is false, so
only the top-level statements run and no connection is opened. -/
def wsgiLoad (env : ProcessEnv) : PyResult ModuleState :=
  moduleLoad env

/-- Running server.py as a script: after the top-level statements, the main
block (lines 130-135) calls init_db(get_db()), so a get_db failure aborts
startup. -/
def scriptStartup (env : ProcessEnv) : PyResult ModuleState :=
  match moduleLoad env with
  | PyResult.raised e => PyResult.raised e
  | PyResult.ok m =>
    match get_db m with
    | PyResult.raised e => PyResult.raised e
    | PyResult.ok _ => PyResult.ok m

/-- A committed row of the records table (columns of server.py lines 55-74). -/
structure ScoreRow where
  id : Nat
  user_name : String
  score : Int
  accuracy : Rat
  date_time : String
deriving DecidableEq

/-- The persistent database state: whether the records table exists, the list of
committed rows, and the next engine-assigned id. -/
structure DBState where
  tableExists : Bool
  rows : List ScoreRow
  nextId : Nat
deriving DecidableEq

/-- init_db (server.py lines 51-75): CREATE TABLE IF NOT EXISTS followed by
commit. It creates the table when absent and otherwise changes nothing; the
committed rows are untouched in both cases. -/
def init_db (db : DBState) : DBState :=
  { db with tableExists := true }

/-- The JSON body of a request to POST /api/scores (server.py line 86). -/
structure ScoreInput where
  user_name : String
  score : Int
  accuracy : Rat
deriving DecidableEq

/-- One output object of GET /api/scores: the four selected columns, with no id
(server.py line 116). -/
structure ScoreOut where
  user_name : String
  score : Int
  accuracy : Rat
  date_time : String
deriving DecidableEq

/-- Projection of a stored row to the four columns selected at server.py
line 116; the engine-assigned id is dropped. -/
def project (r : ScoreRow) : ScoreOut :=
  ⟨r.user_name, r.score, r.accuracy, r.date_time⟩

/-- The JSON bodies the two handlers can produce. -/
inductive HttpBody where
  | message (text : String)
  | errorBody (text : String)
  | scores (out : List ScoreOut)
deriving DecidableEq

/-- Outcome of one request: an HTTP response built by the handler itself, or an
exception that escaped the handler uncaught. -/
inductive HandlerResult where
  | response (status : Nat) (body : HttpBody)
  | uncaughtException (detail : String)
deriving DecidableEq

/-- Engine faults injected at the three fallible points of a handler:
connection acquisition (get_db), statement execution, and commit. -/
structure FaultSpec where
  connectFault : Option String
  executeFault : Option String
  commitFault : Option String
deriving DecidableEq

/-- The fault-free engine behaviour. -/
def noFaults : FaultSpec :=
  ⟨none, none, none⟩

/-- Error raised by cursor.execute: an injected engine fault, or the error the
engine itself raises when the records table does not exist. -/
def executeError (f : FaultSpec) (db : DBState) : Option String :=
  match f.executeFault with
  | some e => some e
  | none => if db.tableExists then none else some "no such table: records"

/-- Comparator realising ORDER BY date_time DESC (server.py line 116) on the
stored rows. -/
def dateDesc (a b : ScoreRow) : Bool :=
  decide (b.date_time ≤ a.date_time)

/-- save_score (server.py lines 84-108). get_db() and db.cursor() run before
the try block, so a connection fault escapes uncaught. The timestamp is
computed by the handler (line 90), not taken from the request body. Inside the
try block, a fault from execute or commit is caught and turned into a 500
response whose error text is "Server error: " followed by the exception
message; commit failure leaves no committed row. On success the row is
committed and a 201 response returned. `ts` is the formatted
datetime.now() string of line 90. -/
def save_score (f : FaultSpec) (ts : String) (data : ScoreInput) (db : DBState) :
    DBState × HandlerResult :=
  match f.connectFault with
  | some e => (db, HandlerResult.uncaughtException e)
  | none =>
    match executeError f db with
    | some e => (db, HandlerResult.response 500 (HttpBody.errorBody ("Server error: " ++ e)))
    | none =>
      match f.commitFault with
      | some e => (db, HandlerResult.response 500 (HttpBody.errorBody ("Server error: " ++ e)))
      | none =>
        ({ db with
            rows := db.rows ++ [⟨db.nextId, data.user_name, data.score, data.accuracy, ts⟩],
            nextId := db.nextId + 1 },
          HandlerResult.response 201 (HttpBody.message "Record saved successfully!"))

/-- get_scores (server.py lines 111-126). There is no try block: a fault from
get_db or from cursor.execute escapes the handler uncaught. On success it
returns the rows ordered by date_time descending, each projected to the four
selected columns, with status 200. -/
def get_scores (f : FaultSpec) (db : DBState) : DBState × HandlerResult :=
  match f.connectFault with
  | some e => (db, HandlerResult.uncaughtException e)
  | none =>
    match executeError f db with
    | some e => (db, HandlerResult.uncaughtException e)
    | none =>
      (db, HandlerResult.response 200
        (HttpBody.scores ((List.mergeSort db.rows dateDesc).map project)))

/-- An empty, schema-initialised store. -/
def readyDB : DBState :=
  ⟨true, [], 0⟩

/-- A wall-clock instant at second precision, as held by a Python
datetime.datetime (the value of datetime.datetime.now() at server.py
line 90). -/
structure DateTime where
  year : Nat
  month : Nat
  day : Nat
  hour : Nat
  minute : Nat
  sec : Nat
deriving DecidableEq

/-- Range constraints of a Python datetime at second precision:
MINYEAR = 1 and MAXYEAR = 9999, months 1-12, days 1-31, and clock fields in
their usual ranges. -/
def DateTime.Valid (t : DateTime) : Prop :=
  1 ≤ t.year ∧ t.year ≤ 9999 ∧ 1 ≤ t.month ∧ t.month ≤ 12 ∧ 1 ≤ t.day ∧ t.day ≤ 31 ∧
    t.hour ≤ 23 ∧ t.minute ≤ 59 ∧ t.sec ≤ 59

instance (t : DateTime) : Decidable t.Valid := by
  unfold DateTime.Valid
  infer_instance

/-- The decimal digit character for a value below ten. -/
def digitChar (n : Nat) : Char :=
  Char.ofNat (48 + n)

/-- Two-digit zero-padded rendering, as strftime produces for the fields
m, d, H, M and S. -/
def pad2 (n : Nat) : List Char :=
  [digitChar (n / 10), digitChar (n % 10)]

/-- Four-digit zero-padded rendering, as strftime produces for the year
field Y (years of a Python datetime never exceed 9999). -/
def pad4 (n : Nat) : List Char :=
  [digitChar (n / 1000), digitChar (n / 100 % 10), digitChar (n / 10 % 10), digitChar (n % 10)]

/-- The character sequence produced by
datetime.strftime with layout Y-m-d H:M:S (server.py line 90). -/
def strftimeChars (t : DateTime) : List Char :=
  pad4 t.year ++ ('-' :: (pad2 t.month ++ ('-' :: (pad2 t.day ++
    (' ' :: (pad2 t.hour ++ (':' :: (pad2 t.minute ++ (':' :: pad2 t.sec)))))))))

/-- The timestamp string stamped by save_score (server.py line 90). -/
def strftime (t : DateTime) : String :=
  String.mk (strftimeChars t)

/-- Numeric value of a digit character. -/
def digitVal (c : Char) : Nat :=
  c.toNat - 48

/-- Read one digit character back as a number. -/
def parseDigit (c : Char) : Option Nat :=
  if c.isDigit then some (digitVal c) else none

/-- Read a two-digit zero-padded field back as a number. -/
def parse2 (a b : Char) : Option Nat :=
  (parseDigit a).bind fun x => (parseDigit b).bind fun y => some (x * 10 + y)

/-- Read a four-digit zero-padded field back as a number. -/
def parse4 (a b c d : Char) : Option Nat :=
  (parseDigit a).bind fun x => (parseDigit b).bind fun y =>
    (parseDigit c).bind fun z => (parseDigit d).bind fun w =>
      some (x * 1000 + y * 100 + z * 10 + w)

/-- Reading a Y-m-d H:M:S string back into an instant: this models how the
networked engine converts the text parameter of the INSERT (server.py line 96)
into its native timestamp-without-timezone column value. -/
def parseTimestamp (s : String) : Option DateTime :=
  match s.data with
  | [y1, y2, y3, y4, '-', m1, m2, '-', d1, d2, ' ', h1, h2, ':', mi1, mi2, ':', s1, s2] =>
    (parse4 y1 y2 y3 y4).bind fun y =>
      (parse2 m1 m2).bind fun mo =>
        (parse2 d1 d2).bind fun d =>
          (parse2 h1 h2).bind fun hh =>
            (parse2 mi1 mi2).bind fun mi =>
              (parse2 s1 s2).bind fun ss =>
                some ⟨y, mo, d, hh, mi, ss⟩
  | _ => none

/-- Chronological position of an instant at second granularity, as a single
number: later instants have larger keys. -/
def chronKey (t : DateTime) : Nat :=
  t.year * 10000000000 + t.month * 100000000 + t.day * 1000000 +
    t.hour * 10000 + t.minute * 100 + t.sec

/-! ### Claims C6, C7, C9 -/

/-- C6: ensureSchema is idempotent: a second init_db call immediately after a
first produces no error (init_db is total), creates no duplicate table, and
leaves the schema flag and every committed row exactly as the first call left
them. -/
theorem init_db_idempotent (db : DBState) :
    init_db (init_db db) = init_db db ∧
    (init_db db).tableExists = true ∧
    (init_db db).rows = db.rows ∧
    (init_db db).nextId = db.nextId :=
  ⟨rfl, rfl, rfl, rfl⟩

/-- C7: the engine binding is a pure function of the truthiness of the single
DATABASE_URL value: when it is falsy the store binds to the embedded-file
engine with positional ? placeholders, auto-increment integer primary key and
text timestamp column; when truthy, to the networked engine with %s
placeholders, server-generated sequence primary key and native
timestamp-without-timezone column. The SQL actually issued by init_db and
save_score, and the engine get_db connects to, are exactly the ones the
binding prescribes. -/
theorem engine_binding_pure_function (url : Option String) :
    resolve url = (if databaseUrlTruthy url then networkedBinding else embeddedBinding) ∧
    get_db ⟨some (), url⟩ = PyResult.ok (resolve url).engine ∧
    insert_sql url =
      "INSERT INTO records (user_name, score, accuracy, date_time) VALUES ("
        ++ (resolve url).placeholderStyle ++ ", " ++ (resolve url).placeholderStyle ++ ", "
        ++ (resolve url).placeholderStyle ++ ", " ++ (resolve url).placeholderStyle ++ ")" ∧
    init_db_sql url =
      "CREATE TABLE IF NOT EXISTS records (id " ++ (resolve url).idColumn
        ++ ", user_name " ++ (if databaseUrlTruthy url then "VARCHAR(100)" else "TEXT")
        ++ " NOT NULL, score INTEGER NOT NULL, accuracy REAL NOT NULL, date_time "
        ++ (resolve url).timestampColumn ++ " NOT NULL)" := by
  cases h : databaseUrlTruthy url <;>
    simp [resolve, get_db, insert_sql, init_db_sql, h, embeddedBinding, networkedBinding]

/-- C9: the record set is append-only: init_db preserves every committed row,
save_score only ever appends (the previous rows are a prefix of the new ones,
whatever faults occur), and get_scores never changes the state. -/
theorem records_append_only (f : FaultSpec) (ts : String) (data : ScoreInput) (db : DBState) :
    (init_db db).rows = db.rows ∧
    db.rows <+: (save_score f ts data db).1.rows ∧
    (get_scores f db).1 = db := by
  refine ⟨rfl, ?_, ?_⟩
  · unfold save_score
    cases f.connectFault with
    | some e => exact List.prefix_refl _
    | none =>
      cases executeError f db with
      | some e => exact List.prefix_refl _
      | none =>
        cases f.commitFault with
        | some e => exact List.prefix_refl _
        | none => exact List.prefix_append _ _
  · unfold get_scores
    cases f.connectFault with
    | some e => rfl
    | none =>
      cases executeError f db with
      | some e => rfl
      | none => rfl

/-! ### Claims C1, C2 (listing and insert-then-list) -/

/-- The comparator of ORDER BY date_time DESC is transitive. -/
theorem dateDesc_trans (a b c : ScoreRow) : dateDesc a b → dateDesc b c → dateDesc a c := by
  simp only [dateDesc, decide_eq_true_eq]
  exact fun h1 h2 => le_trans h2 h1

/-- The comparator of ORDER BY date_time DESC is total. -/
theorem dateDesc_total (a b : ScoreRow) : dateDesc a b || dateDesc b a := by
  simp only [dateDesc, Bool.or_eq_true, decide_eq_true_eq]
  exact le_total b.date_time a.date_time

/-- C1: for every store state with the schema in place, get_scores succeeds with
status 200 and returns every committed row, projected to exactly the four
fields of ScoreOut (the engine-assigned id is dropped by project), as a
sequence sorted by date_time descending; an empty store yields the empty
sequence and no error. -/
theorem get_scores_lists_all_sorted (db : DBState) (h : db.tableExists = true) :
    ∃ out : List ScoreOut,
      get_scores noFaults db = (db, HandlerResult.response 200 (HttpBody.scores out)) ∧
      out.Perm (db.rows.map project) ∧
      out.Pairwise (fun a b => b.date_time ≤ a.date_time) ∧
      (db.rows = [] → out = []) := by
  refine ⟨(List.mergeSort db.rows dateDesc).map project, ?_, ?_, ?_, ?_⟩
  · simp [get_scores, noFaults, executeError, h]
  · exact (List.mergeSort_perm db.rows dateDesc).map project
  · refine List.Pairwise.map project ?_
      (List.sorted_mergeSort dateDesc_trans dateDesc_total db.rows)
    intro a b hab
    simpa [dateDesc, project] using hab
  · intro he
    simp [he]

/-- C1 witness at the empty initialised store. -/
theorem get_scores_lists_all_sorted_witness :
    readyDB.tableExists = true ∧
    ∃ out : List ScoreOut,
      get_scores noFaults readyDB = (readyDB, HandlerResult.response 200 (HttpBody.scores out)) ∧
      out.Perm (readyDB.rows.map project) ∧
      out.Pairwise (fun a b => b.date_time ≤ a.date_time) ∧
      (readyDB.rows = [] → out = []) :=
  ⟨rfl, get_scores_lists_all_sorted readyDB rfl⟩

/-- C2: on any store with the schema in place, a fault-free save_score followed
by get_scores yields exactly the previous get_scores sequence plus one new
entry whose user_name, score and accuracy are the request inputs and whose
date_time is `ts`, the string the handler stamped from the wall clock read
during the call (server.py line 90) — the caller supplies no timestamp. -/
theorem save_then_get_adds_one_entry (ts : String) (data : ScoreInput) (db : DBState)
    (h : db.tableExists = true) :
    ∃ dbAfter outBefore outAfter,
      save_score noFaults ts data db =
        (dbAfter, HandlerResult.response 201 (HttpBody.message "Record saved successfully!")) ∧
      get_scores noFaults db = (db, HandlerResult.response 200 (HttpBody.scores outBefore)) ∧
      get_scores noFaults dbAfter =
        (dbAfter, HandlerResult.response 200 (HttpBody.scores outAfter)) ∧
      outAfter.Perm
        ((⟨data.user_name, data.score, data.accuracy, ts⟩ : ScoreOut) :: outBefore) := by
  refine ⟨{ db with
      rows := db.rows ++ [⟨db.nextId, data.user_name, data.score, data.accuracy, ts⟩],
      nextId := db.nextId + 1 },
    (List.mergeSort db.rows dateDesc).map project,
    (List.mergeSort (db.rows ++ [⟨db.nextId, data.user_name, data.score, data.accuracy, ts⟩])
      dateDesc).map project, ?_, ?_, ?_, ?_⟩
  · simp [save_score, noFaults, executeError, h]
  · simp [get_scores, noFaults, executeError, h]
  · simp [get_scores, noFaults, executeError, h]
  · have p1 : ((List.mergeSort
          (db.rows ++ [(⟨db.nextId, data.user_name, data.score, data.accuracy, ts⟩ : ScoreRow)])
          dateDesc).map project).Perm
        ((db.rows ++
          [(⟨db.nextId, data.user_name, data.score, data.accuracy, ts⟩ : ScoreRow)]).map
            project) :=
      (List.mergeSort_perm _ dateDesc).map project
    have p2 : (db.rows ++
          [(⟨db.nextId, data.user_name, data.score, data.accuracy, ts⟩ : ScoreRow)]).map project
        = db.rows.map project ++
          [(⟨data.user_name, data.score, data.accuracy, ts⟩ : ScoreOut)] := by
      simp [project]
    have p3 : (db.rows.map project ++
          [(⟨data.user_name, data.score, data.accuracy, ts⟩ : ScoreOut)]).Perm
        ((⟨data.user_name, data.score, data.accuracy, ts⟩ : ScoreOut) :: db.rows.map project) :=
      List.perm_append_comm
    have p4 : (db.rows.map project).Perm ((List.mergeSort db.rows dateDesc).map project) :=
      ((List.mergeSort_perm db.rows dateDesc).map project).symm
    exact ((p2 ▸ p1).trans p3).trans (p4.cons _)

/-- C2 witness: inserting the record of the spec example into the empty store. -/
theorem save_then_get_adds_one_entry_witness :
    readyDB.tableExists = true ∧
    ∃ dbAfter outBefore outAfter,
      save_score noFaults "2025-01-02 03:04:05" ⟨"alice", 950, 87/100⟩ readyDB =
        (dbAfter, HandlerResult.response 201 (HttpBody.message "Record saved successfully!")) ∧
      get_scores noFaults readyDB =
        (readyDB, HandlerResult.response 200 (HttpBody.scores outBefore)) ∧
      get_scores noFaults dbAfter =
        (dbAfter, HandlerResult.response 200 (HttpBody.scores outAfter)) ∧
      outAfter.Perm
        ((⟨"alice", 950, 87/100, "2025-01-02 03:04:05"⟩ : ScoreOut) :: outBefore) :=
  ⟨rfl, save_then_get_adds_one_entry "2025-01-02 03:04:05" ⟨"alice", 950, 87/100⟩ readyDB rfl⟩

/-! ### Claims C3, C4, C5 (fault handling) -/

/-- C3 counterexample: an engine fault during get_scores escapes the handler as
an uncaught exception — there is no try/except in get_scores — so it is not
translated to the 500 store-error response the claim requires for listAll. -/
theorem get_scores_fault_uncaught_cex :
    (get_scores ⟨none, some "connection lost", none⟩ readyDB).2 =
      HandlerResult.uncaughtException "connection lost" ∧
    (get_scores ⟨none, some "connection lost", none⟩ readyDB).2 ≠
      HandlerResult.response 500 (HttpBody.errorBody "Server error: connection lost") := by
  exact ⟨rfl, by decide⟩

/-- C3 (amended): a fault raised inside save_score's try block (statement
execution or commit) is reported as a 500 response with the store-error body;
but a fault during get_scores, and a connection-acquisition fault in either
handler (get_db runs before save_score's try block), escapes the handler
uncaught instead of being translated to that response. -/
theorem fault_reporting_insert_vs_list (e ts : String) (data : ScoreInput) (db : DBState)
    (h : db.tableExists = true) :
    (save_score ⟨none, some e, none⟩ ts data db).2 =
      HandlerResult.response 500 (HttpBody.errorBody ("Server error: " ++ e)) ∧
    (save_score ⟨none, none, some e⟩ ts data db).2 =
      HandlerResult.response 500 (HttpBody.errorBody ("Server error: " ++ e)) ∧
    (get_scores ⟨none, some e, none⟩ db).2 = HandlerResult.uncaughtException e ∧
    (save_score ⟨some e, none, none⟩ ts data db).2 = HandlerResult.uncaughtException e ∧
    (get_scores ⟨some e, none, none⟩ db).2 = HandlerResult.uncaughtException e := by
  simp [save_score, get_scores, executeError, h]

/-- C3 amended-claim witness at a concrete fault and store. -/
theorem fault_reporting_insert_vs_list_witness :
    readyDB.tableExists = true ∧
    (save_score ⟨none, some "connection lost", none⟩ "2025-01-02 03:04:05"
        ⟨"alice", 950, 87/100⟩ readyDB).2 =
      HandlerResult.response 500 (HttpBody.errorBody "Server error: connection lost") :=
  ⟨rfl, (fault_reporting_insert_vs_list "connection lost" "2025-01-02 03:04:05"
    ⟨"alice", 950, 87/100⟩ readyDB rfl).1⟩

/-- C4 counterexample: with a networked URL configured and the driver not
importable, loading the module the way a WSGI server does (main guard false)
completes without any fatal error — engine resolution does not fail during
process initialization — while the missing-driver error is instead raised by
get_db, which runs per request. -/
theorem driver_missing_startup_cex :
    wsgiLoad ⟨false, some "postgresql://db.example/quiz"⟩ =
      PyResult.ok ⟨none, some "postgresql://db.example/quiz"⟩ ∧
    get_db ⟨none, some "postgresql://db.example/quiz"⟩ =
      PyResult.raised "psycopg2 is not installed. Required for PostgreSQL." := by
  exact ⟨rfl, by decide⟩

/-- C4 (amended): the guarded import never aborts module initialization; the
missing-driver error is raised at the first get_db call. So startup fails
fatally only on the script path, where the main block runs init_db(get_db());
under a WSGI import the same error surfaces per request instead. -/
theorem driver_missing_raises_at_get_db (env : ProcessEnv)
    (h1 : databaseUrlTruthy env.DATABASE_URL = true) (h2 : env.driverAvailable = false) :
    moduleLoad env = PyResult.ok ⟨none, env.DATABASE_URL⟩ ∧
    wsgiLoad env = PyResult.ok ⟨none, env.DATABASE_URL⟩ ∧
    get_db ⟨none, env.DATABASE_URL⟩ =
      PyResult.raised "psycopg2 is not installed. Required for PostgreSQL." ∧
    scriptStartup env =
      PyResult.raised "psycopg2 is not installed. Required for PostgreSQL." := by
  simp [moduleLoad, wsgiLoad, importPsycopg2, get_db, scriptStartup, h1, h2]

/-- C4 amended-claim witness at a concrete environment. -/
theorem driver_missing_raises_at_get_db_witness :
    databaseUrlTruthy (ProcessEnv.mk false (some "postgresql://db.example/quiz")).DATABASE_URL
        = true ∧
    (ProcessEnv.mk false (some "postgresql://db.example/quiz")).driverAvailable = false ∧
    scriptStartup ⟨false, some "postgresql://db.example/quiz"⟩ =
      PyResult.raised "psycopg2 is not installed. Required for PostgreSQL." :=
  ⟨by decide, rfl,
    (driver_missing_raises_at_get_db ⟨false, some "postgresql://db.example/quiz"⟩
      (by decide) rfl).2.2.2⟩

/-- C5 counterexample: a connection-acquisition fault raised during an insert
request is an engine fault during insert, yet insert does not return a store
error there: get_db runs before the try block of save_score, so the exception
escapes the handler uncaught instead of producing the 500 store-error
response. -/
theorem insert_connect_fault_not_store_error_cex :
    (save_score ⟨some "connection lost", none, none⟩ "2025-01-02 03:04:05"
        ⟨"alice", 950, 87/100⟩ readyDB).2 =
      HandlerResult.uncaughtException "connection lost" ∧
    (save_score ⟨some "connection lost", none, none⟩ "2025-01-02 03:04:05"
        ⟨"alice", 950, 87/100⟩ readyDB).2 ≠
      HandlerResult.response 500
        (HttpBody.errorBody "Server error: connection lost") := by
  exact ⟨rfl, by decide⟩

/-- C5 (amended): whenever the engine faults during insert — at connection
acquisition, at statement execution, or at commit — the committed state is
unchanged and a subsequent get_scores sees exactly what it saw before: no
partial row is ever committed. The fault is reported as the 500 store-error
response only when it is raised at execution or commit (inside the try
block); a connection-acquisition fault escapes the handler uncaught instead
of returning a store error. -/
theorem insert_fault_no_partial_row (e ts : String) (data : ScoreInput) (db : DBState)
    (h : db.tableExists = true) :
    (save_score ⟨some e, none, none⟩ ts data db).1 = db ∧
    (save_score ⟨none, some e, none⟩ ts data db).1 = db ∧
    (save_score ⟨none, none, some e⟩ ts data db).1 = db ∧
    (save_score ⟨none, some e, none⟩ ts data db).2 =
      HandlerResult.response 500 (HttpBody.errorBody ("Server error: " ++ e)) ∧
    (save_score ⟨none, none, some e⟩ ts data db).2 =
      HandlerResult.response 500 (HttpBody.errorBody ("Server error: " ++ e)) ∧
    (save_score ⟨some e, none, none⟩ ts data db).2 = HandlerResult.uncaughtException e ∧
    get_scores noFaults (save_score ⟨none, none, some e⟩ ts data db).1 =
      get_scores noFaults db := by
  simp [save_score, executeError, h]

/-- C5 amended-claim witness at a concrete fault, record and store. -/
theorem insert_fault_no_partial_row_witness :
    readyDB.tableExists = true ∧
    (save_score ⟨none, none, some "connection dropped"⟩ "2025-01-02 03:04:05"
        ⟨"alice", 950, 87/100⟩ readyDB).1 = readyDB :=
  ⟨rfl, (insert_fault_no_partial_row "connection dropped" "2025-01-02 03:04:05"
    ⟨"alice", 950, 87/100⟩ readyDB rfl).2.2.1⟩

/-! ### Claim C8 (server-side timestamp stamping and round-trip) -/

/-- Digit characters are recognised as digits. -/
theorem digitChar_isDigit : ∀ d, d < 10 → (digitChar d).isDigit = true := by decide

/-- Reading a digit character back recovers its value. -/
theorem digitVal_digitChar : ∀ d, d < 10 → digitVal (digitChar d) = d := by decide

/-- parseDigit inverts digitChar. -/
theorem parseDigit_digitChar {d : Nat} (h : d < 10) :
    parseDigit (digitChar d) = some d := by
  rw [parseDigit, digitChar_isDigit d h, if_pos rfl, digitVal_digitChar d h]

/-- parse2 inverts pad2 below 100. -/
theorem parse2_pad2 {n : Nat} (h : n < 100) :
    parse2 (digitChar (n / 10)) (digitChar (n % 10)) = some n := by
  rw [parse2, parseDigit_digitChar (by omega), parseDigit_digitChar (by omega)]
  simp only [Option.some_bind]
  congr 1
  omega

/-- parse4 inverts pad4 below 10000. -/
theorem parse4_pad4 {n : Nat} (h : n < 10000) :
    parse4 (digitChar (n / 1000)) (digitChar (n / 100 % 10)) (digitChar (n / 10 % 10))
      (digitChar (n % 10)) = some n := by
  rw [parse4, parseDigit_digitChar (by omega), parseDigit_digitChar (by omega),
    parseDigit_digitChar (by omega), parseDigit_digitChar (by omega)]
  simp only [Option.some_bind]
  congr 1
  omega

/-- Parsing the strftime string of a valid instant recovers that instant. -/
theorem parseTimestamp_strftime (t : DateTime) (hv : t.Valid) :
    parseTimestamp (strftime t) = some t := by
  obtain ⟨y, mo, d, hh, mi, ss⟩ := t
  dsimp only [DateTime.Valid] at hv
  obtain ⟨h1, h2, h3, h4, h5, h6, h7, h8, h9⟩ := hv
  simp only [strftime, strftimeChars, pad4, pad2, List.cons_append, List.nil_append]
  rw [parseTimestamp]
  simp only
  rw [parse4_pad4 (by omega), parse2_pad2 (by omega), parse2_pad2 (by omega),
    parse2_pad2 (by omega), parse2_pad2 (by omega), parse2_pad2 (by omega)]
  simp only [Option.some_bind]

/-- C8: the handler, not the caller, stamps date_time: the request body
(ScoreInput) carries no timestamp, and on the fault-free path save_score
appends exactly one row whose date_time is the strftime rendering, at second
precision, of the wall clock read during the call. The embedded engine stores
that text unchanged, and the same string read back as a timestamp (as the
networked engine does with the identical INSERT parameter) denotes the same
instant: parseTimestamp inverts strftime. -/
theorem insert_stamps_server_time (now : DateTime) (hv : now.Valid)
    (data : ScoreInput) (db : DBState) (h : db.tableExists = true) :
    (save_score noFaults (strftime now) data db).1.rows =
      db.rows ++
        [⟨db.nextId, data.user_name, data.score, data.accuracy, strftime now⟩] ∧
    parseTimestamp (strftime now) = some now := by
  constructor
  · simp [save_score, noFaults, executeError, h]
  · exact parseTimestamp_strftime now hv

/-- C8 witness at a concrete instant, record and store. -/
theorem insert_stamps_server_time_witness :
    DateTime.Valid ⟨2025, 3, 14, 15, 9, 26⟩ ∧ readyDB.tableExists = true ∧
    parseTimestamp (strftime ⟨2025, 3, 14, 15, 9, 26⟩) = some ⟨2025, 3, 14, 15, 9, 26⟩ :=
  ⟨by decide, rfl,
    (insert_stamps_server_time ⟨2025, 3, 14, 15, 9, 26⟩ (by decide)
      ⟨"alice", 950, 87/100⟩ readyDB rfl).2⟩

/-! ### Claim C10 (the text encoding of timestamps is order-preserving) -/

/-- Digit characters compare like their values. -/
theorem digitChar_lt : ∀ d1, d1 < 10 → ∀ d2, d2 < 10 → d1 < d2 →
    digitChar d1 < digitChar d2 := by decide

/-- A lexicographically strict comparison of equal-length prefixes is
preserved under appending arbitrary suffixes. -/
theorem lex_append_of_length_eq : ∀ {l1 l2 : List Char} (r1 r2 : List Char),
    List.Lex (· < ·) l1 l2 → l1.length = l2.length →
    List.Lex (· < ·) (l1 ++ r1) (l2 ++ r2) := by
  intro l1 l2 r1 r2 h
  induction h with
  | nil =>
    intro hlen
    simp at hlen
  | cons h ih =>
    intro hlen
    exact List.Lex.cons (ih (by simpa using hlen))
  | rel h =>
    intro _
    exact List.Lex.rel h

/-- pad2 is strictly monotone under lexicographic comparison below 100. -/
theorem pad2_lex_lt {a b : Nat} (ha : a < 100) (hb : b < 100) (h : a < b) :
    List.Lex (· < ·) (pad2 a) (pad2 b) := by
  rcases Nat.lt_trichotomy (a / 10) (b / 10) with h1 | h1 | h1
  · exact List.Lex.rel (digitChar_lt _ (by omega) _ (by omega) h1)
  · rw [pad2, pad2, h1]
    exact List.Lex.cons (List.Lex.rel (digitChar_lt _ (by omega) _ (by omega) (by omega)))
  · omega

/-- pad4 is strictly monotone under lexicographic comparison below 10000. -/
theorem pad4_lex_lt {a b : Nat} (ha : a < 10000) (hb : b < 10000) (h : a < b) :
    List.Lex (· < ·) (pad4 a) (pad4 b) := by
  rcases Nat.lt_trichotomy (a / 1000) (b / 1000) with h1 | h1 | h1
  · exact List.Lex.rel (digitChar_lt _ (by omega) _ (by omega) h1)
  · rcases Nat.lt_trichotomy (a / 100 % 10) (b / 100 % 10) with h2 | h2 | h2
    · rw [pad4, pad4, h1]
      exact List.Lex.cons (List.Lex.rel (digitChar_lt _ (by omega) _ (by omega) h2))
    · rcases Nat.lt_trichotomy (a / 10 % 10) (b / 10 % 10) with h3 | h3 | h3
      · rw [pad4, pad4, h1, h2]
        exact List.Lex.cons (List.Lex.cons
          (List.Lex.rel (digitChar_lt _ (by omega) _ (by omega) h3)))
      · rw [pad4, pad4, h1, h2, h3]
        exact List.Lex.cons (List.Lex.cons (List.Lex.cons
          (List.Lex.rel (digitChar_lt _ (by omega) _ (by omega) (by omega)))))
      · omega
    · omega
  · omega

/-- Chronologically strictly earlier valid instants have lexicographically
strictly smaller strftime character sequences. -/
theorem strftimeChars_lex_lt : ∀ t1 t2 : DateTime, t1.Valid → t2.Valid →
    chronKey t1 < chronKey t2 →
    List.Lex (· < ·) (strftimeChars t1) (strftimeChars t2) := by
  rintro ⟨y1, mo1, d1, hh1, mi1, s1⟩ ⟨y2, mo2, d2, hh2, mi2, s2⟩ hv1 hv2 hk
  dsimp only [DateTime.Valid] at hv1 hv2
  obtain ⟨a1, a2, a3, a4, a5, a6, a7, a8, a9⟩ := hv1
  obtain ⟨b1, b2, b3, b4, b5, b6, b7, b8, b9⟩ := hv2
  simp only [chronKey] at hk
  simp only [strftimeChars]
  rcases Nat.lt_trichotomy y1 y2 with hy | hy | hy
  · exact lex_append_of_length_eq _ _ (pad4_lex_lt (by omega) (by omega) hy) rfl
  · rw [hy]
    apply List.Lex.append_left
    apply List.Lex.cons
    rcases Nat.lt_trichotomy mo1 mo2 with hmo | hmo | hmo
    · exact lex_append_of_length_eq _ _ (pad2_lex_lt (by omega) (by omega) hmo) rfl
    · rw [hmo]
      apply List.Lex.append_left
      apply List.Lex.cons
      rcases Nat.lt_trichotomy d1 d2 with hd | hd | hd
      · exact lex_append_of_length_eq _ _ (pad2_lex_lt (by omega) (by omega) hd) rfl
      · rw [hd]
        apply List.Lex.append_left
        apply List.Lex.cons
        rcases Nat.lt_trichotomy hh1 hh2 with hh | hh | hh
        · exact lex_append_of_length_eq _ _ (pad2_lex_lt (by omega) (by omega) hh) rfl
        · rw [hh]
          apply List.Lex.append_left
          apply List.Lex.cons
          rcases Nat.lt_trichotomy mi1 mi2 with hmi | hmi | hmi
          · exact lex_append_of_length_eq _ _ (pad2_lex_lt (by omega) (by omega) hmi) rfl
          · rw [hmi]
            apply List.Lex.append_left
            apply List.Lex.cons
            exact pad2_lex_lt (by omega) (by omega) (by omega)
          · omega
        · omega
      · omega
    · omega
  · omega

/-- Valid instants with equal chronological keys are equal. -/
theorem chronKey_inj : ∀ t1 t2 : DateTime, t1.Valid → t2.Valid →
    chronKey t1 = chronKey t2 → t1 = t2 := by
  rintro ⟨y1, mo1, d1, hh1, mi1, s1⟩ ⟨y2, mo2, d2, hh2, mi2, s2⟩ hv1 hv2 hk
  dsimp only [DateTime.Valid] at hv1 hv2
  obtain ⟨a1, a2, a3, a4, a5, a6, a7, a8, a9⟩ := hv1
  obtain ⟨b1, b2, b3, b4, b5, b6, b7, b8, b9⟩ := hv2
  simp only [chronKey] at hk
  have : y1 = y2 ∧ mo1 = mo2 ∧ d1 = d2 ∧ hh1 = hh2 ∧ mi1 = mi2 ∧ s1 = s2 := by omega
  obtain ⟨rfl, rfl, rfl, rfl, rfl, rfl⟩ := this
  rfl

/-- C10: for the embedded engine the timestamp encoding is order-preserving:
chronologically ordered valid instants (at second granularity) have strftime
strings in the same order under lexicographic string comparison, so the text
ORDER BY date_time DESC of get_scores coincides with true chronological
descending order. -/
theorem strftime_monotone (t1 t2 : DateTime) (hv1 : t1.Valid) (hv2 : t2.Valid)
    (hle : chronKey t1 ≤ chronKey t2) :
    strftime t1 ≤ strftime t2 := by
  rcases Nat.lt_or_ge (chronKey t1) (chronKey t2) with h | h
  · apply le_of_lt
    rw [String.lt_iff_toList_lt]
    exact strftimeChars_lex_lt t1 t2 hv1 hv2 h
  · rw [chronKey_inj t1 t2 hv1 hv2 (le_antisymm hle h)]

/-- C10 witness at two concrete instants across a year boundary. -/
theorem strftime_monotone_witness :
    DateTime.Valid ⟨2024, 12, 31, 23, 59, 59⟩ ∧ DateTime.Valid ⟨2025, 1, 1, 0, 0, 0⟩ ∧
    chronKey ⟨2024, 12, 31, 23, 59, 59⟩ ≤ chronKey ⟨2025, 1, 1, 0, 0, 0⟩ ∧
    strftime ⟨2024, 12, 31, 23, 59, 59⟩ ≤ strftime ⟨2025, 1, 1, 0, 0, 0⟩ :=
  ⟨by decide, by decide, by decide,
    strftime_monotone ⟨2024, 12, 31, 23, 59, 59⟩ ⟨2025, 1, 1, 0, 0, 0⟩
      (by decide) (by decide) (by decide)⟩

end Server
